

import Mathlib

/-!
Verification of the adaptive report-synthesis pipeline of
`report_generator.py` (class `ReportGenerator`).

The Python code is shallowly embedded: dictionaries become structures or
association lists (which preserve insertion order, as Python dicts do),
Python strings become `String`, and the small float arithmetic of the
classifier and the statistics is modelled exactly over `ℚ` (every float
value reached by a verified claim is a small rational on which IEEE
rounding cannot flip any of the compared inequalities).  Python
exceptions of the report generators (`ValueError` from formatting a
string with a `.2f` format spec, `ZeroDivisionError`) are modelled with
`Except String`.  External collaborators (the Groq client, `json.loads`)
are parameters of the embedding: the orchestrator receives the outcome
of the AI call as an `Except` value, and the JSON decoding appears as an
oracle argument that no verified claim exercises.
-/

set_option maxRecDepth 4000

-- The arithmetic of `ℚ` is irreducible by default; the concrete
-- scenario claims evaluate the embedded pipeline with `decide`, which
-- needs these definitions to reduce.
attribute [local semireducible] Rat.add Rat.sub Rat.mul Rat.inv Rat.ofScientific

/-! ## Python string primitives -/

/-- Whitespace test used by Python `str.split()` / `str.strip()` (ASCII). -/
def isWS (c : Char) : Bool := c.isWhitespace

/-- Python `str.lower()` on a char list (ASCII case folding). -/
def lowerL (l : List Char) : List Char := l.map Char.toLower

/-- Python `str.lower()`. -/
def pyLower (s : String) : String := ⟨lowerL s.data⟩

/-- Does `l` start with `pat`? -/
def startsWithL : List Char → List Char → Bool
  | [], _ => true
  | _ :: _, [] => false
  | p :: ps, c :: cs => p == c && startsWithL ps cs

/-- Python `pat in s` (substring containment) on char lists. -/
def containsL (pat : List Char) : List Char → Bool
  | [] => startsWithL pat []
  | c :: rest => startsWithL pat (c :: rest) || containsL pat rest

/-- Python `pat in s` (substring containment). -/
def strContains (s pat : String) : Bool := containsL pat.data s.data

/-- Number of positions of `l` at which `pat` starts (occurrence count,
overlaps included).  Used only to state claim hypotheses about "section
markers". -/
def countSubL (pat : List Char) : List Char → Nat
  | [] => if startsWithL pat [] then 1 else 0
  | c :: rest => (if startsWithL pat (c :: rest) then 1 else 0) + countSubL pat rest

def countSub (s pat : String) : Nat := countSubL pat.data s.data

/-- Python `s.split(c)` for a one-character separator: keeps empty
pieces, so the result always has `count c + 1` elements. -/
def splitOnChar (c : Char) : List Char → List (List Char)
  | [] => [[]]
  | x :: xs =>
    if x == c then [] :: splitOnChar c xs
    else match splitOnChar c xs with
      | [] => [[x]]
      | p :: ps => (x :: p) :: ps

/-- Python `str.strip()` on a char list. -/
def pyStripL (l : List Char) : List Char :=
  ((l.dropWhile isWS).reverse.dropWhile isWS).reverse

/-- Python `str.strip()`. -/
def pyStrip (s : String) : String := ⟨pyStripL s.data⟩

/-- Number of words of Python `str.split()` (maximal runs of
non-whitespace characters); `inWord` records whether the previous
character was part of a word. -/
def wcFrom (inWord : Bool) : List Char → Nat
  | [] => 0
  | c :: rest =>
    if isWS c then wcFrom false rest
    else (if inWord then 0 else 1) + wcFrom true rest

/-- `len(s.split())` in Python. -/
def word_count (s : String) : Nat := wcFrom false s.data

/-- Python `str.title()` (ASCII): the first letter of each alphabetic
run is uppercased, the rest lowercased. -/
def pyTitleL : Bool → List Char → List Char
  | _, [] => []
  | prevAlpha, c :: rest =>
    (if c.isAlpha then (if prevAlpha then c.toLower else c.toUpper) else c) ::
      pyTitleL c.isAlpha rest

def pyTitle (s : String) : String := ⟨pyTitleL false s.data⟩

/-- Python `s.replace(" ", "_")`. -/
def spacesToUnderscores (s : String) : String :=
  ⟨s.data.map (fun c => if c == ' ' then '_' else c)⟩

/-- An apostrophe character, kept out of string literals. -/
def apostS : String := ⟨[Char.ofNat 39]⟩

/-- Python `s.startswith(pre)`. -/
def pyStartsWith (s pre : String) : Bool := startsWithL pre.data s.data

/-! ## Number rendering

The report text renders floats with `.2f` / `.1f` / `.1%` format specs.
The digits rendered are never inspected by a verified claim, so the
model rounds half-up instead of reproducing IEEE half-even ties. -/

def padTwo (n : Nat) : String := if n < 10 then "0" ++ toString n else toString n

/-- Rendering of a rational with two decimals (`"%.2f"`). -/
def fmt2 (q : ℚ) : String :=
  let m : Int := Int.floor (q * 100 + 1 / 2)
  let sign := if m < 0 then "-" else ""
  let a := m.natAbs
  sign ++ toString (a / 100) ++ "." ++ padTwo (a % 100)

/-- Rendering of a rational with one decimal (`"%.1f"`). -/
def fmt1 (q : ℚ) : String :=
  let m : Int := Int.floor (q * 10 + 1 / 2)
  let sign := if m < 0 then "-" else ""
  let a := m.natAbs
  sign ++ toString (a / 10) ++ "." ++ toString (a % 10)

/-- Rendering of a rational as a percentage with one decimal (`"%.1%"`
format spec, i.e. the value is multiplied by 100 first). -/
def fmtPct1 (q : ℚ) : String := fmt1 (q * 100) ++ "%"

/-! ## Python failure model

Formatting the string `"N/A"` (the default of `dict.get`) with a `.2f`
format spec raises `ValueError` in Python; dividing a float by `0.0`
raises `ZeroDivisionError`.  Both are modelled with `Except String`. -/

/-- Model of the f-string fragment `{d.get(key, "N/A"):.2f}`: the value
is either a float (rendered) or the string default (a `ValueError`). -/
def pyFmt2 : Option ℚ → Except String String
  | some q => .ok (fmt2 q)
  | none => .error "ValueError: Unknown format code f for object of type str"

/-- Python float division, raising on a zero denominator. -/
def pyDiv (a b : ℚ) : Except String ℚ :=
  if b = 0 then .error "ZeroDivisionError: float division by zero" else .ok (a / b)

def exceptIsOk : Except ε α → Bool
  | .ok _ => true
  | .error _ => false

/-! ## Domain classifier (`_detect_schema`) -/

/-- The financial indicator terms of `_detect_schema`. -/
def financial_terms : List String :=
  ["revenue", "profit", "cost", "margin", "expense", "budget",
   "cash flow", "balance sheet", "p&l", "income", "$", "dollar",
   "financial", "earning", "expenditure"]

/-- The sales indicator terms of `_detect_schema`. -/
def sales_terms : List String :=
  ["lead", "deal", "customer", "pipeline", "conversion", "sales",
   "opportunity", "forecast", "quota", "win rate", "client",
   "prospect", "account", "territory"]

/-- The operational indicator terms of `_detect_schema`. -/
def operational_terms : List String :=
  ["production", "inventory", "supply chain", "manufacturing",
   "logistics", "efficiency", "throughput", "quality",
   "operation", "process", "capacity", "output"]

/-- `sum(1 for term in terms if term in content_lower)`: the number of
terms occurring as substrings. -/
def keywordScore (terms : List String) (contentLower : String) : Nat :=
  terms.countP (fun t => strContains contentLower t)

/-- The schema dictionary built by `_detect_schema`.  The early-return
branch for empty content omits the `content_length` key, hence the
`Option`. -/
structure Schema where
  type : String
  confidence : ℚ
  indicatorsFinancial : Nat
  indicatorsSales : Nat
  indicatorsOperational : Nat
  business_type : String
  content_length : Option Nat
deriving DecidableEq

/-- Embedding of `_detect_schema`.  `max(scores, key=scores.get)`
returns the first key of the insertion order `financial, sales,
operational` attaining the maximum; the confidence divides the primary
score by `sum(scores.values()) + 0.001` (exact rational model of the
float arithmetic). -/
def detect_schema (content business_type : String) : Schema :=
  if content = "" then
    { type := "general", confidence := 0,
      indicatorsFinancial := 0, indicatorsSales := 0, indicatorsOperational := 0,
      business_type := business_type, content_length := none }
  else
    let cl := pyLower content
    let f := keywordScore financial_terms cl
    let s := keywordScore sales_terms cl
    let o := keywordScore operational_terms cl
    if 0 < max f (max s o) then
      { type := if s ≤ f ∧ o ≤ f then "financial"
                else if o ≤ s then "sales" else "operational",
        confidence := ((max f (max s o) : ℕ) : ℚ) / (((f + s + o : ℕ) : ℚ) + 1 / 1000),
        indicatorsFinancial := f, indicatorsSales := s, indicatorsOperational := o,
        business_type := business_type, content_length := some content.length }
    else
      { type := "general", confidence := 0,
        indicatorsFinancial := f, indicatorsSales := s, indicatorsOperational := o,
        business_type := business_type, content_length := some content.length }

/-! ## Validator (`_validate_report`) -/

/-- The boilerplate ("non-answer") phrases of `_validate_report`. -/
def generic_phrases : List String :=
  ["as an AI language model",
   "I cannot provide",
   "I don" ++ apostS ++ "t have access",
   "based on the limited information",
   "without more data"]

/-- Number of boilerplate phrases occurring (case-insensitively) in the
report. -/
def generic_count (report : String) : Nat :=
  generic_phrases.countP (fun p => strContains (pyLower report) (pyLower p))

/-- Embedding of `_validate_report`: rejects empty or short (stripped
length below 100) text, then requires a `##` section marker, strictly
more than 50 words, and fewer than two boilerplate phrases. -/
def validate_report (report : String) : Bool :=
  if report = "" ∨ (pyStrip report).length < 100 then false
  else strContains report "##" && decide (50 < word_count report)
        && decide (generic_count report < 2)

/-! ### Claim C4 -/

/-- A text with exactly 50 words, two `##` section markers and no
boilerplate phrases; the source rejects it (`len(report.split()) > 50`
is strict), although the claim says it must be accepted. -/
def c4fifty : String :=
  "## Alpha\n## Beta\n" ++ String.intercalate " " (List.replicate 46 "word")

/-- A text identical in structure but with 51 words, which the
validator accepts. -/
def c4fiftyone : String :=
  "## Alpha\n## Beta\n" ++ String.intercalate " " (List.replicate 47 "word")

/-! ## Content type resolver (`_detect_data_type`) -/

def lbraceC : Char := Char.ofNat 123

def rbraceC : Char := Char.ofNat 125

def firstCharIs (l : List Char) (c : Char) : Bool :=
  match l with
  | [] => false
  | x :: _ => x == c

def lastCharIs (l : List Char) (c : Char) : Bool := firstCharIs l.reverse c

/-- `content.strip().split("\n")`, shared between the resolver and the
claims about it. -/
def stripLines (content : String) : List (List Char) :=
  splitOnChar '\n' (pyStrip content).data

/-- Embedding of `_detect_data_type`.  `jsonOk` is the external
`json.loads` success oracle (the library call is not part of this
repository); it is consulted only when the stripped content is
brace/bracket delimited, and no verified claim depends on it. -/
def detect_data_type (jsonOk : String → Bool) (content : String) : String :=
  if (pyStrip content).length = 0 then "text"
  else
    let lines := stripLines content
    let l0 := lines.headD []
    if 1 < lines.length ∧ containsL [','] l0 = true ∧ 1 < (splitOnChar ',' l0).length then
      "csv"
    else if 1 < lines.length ∧ containsL ['\t'] l0 = true ∧ 1 < (splitOnChar '\t' l0).length then
      "csv"
    else
      let cs := (pyStrip content).data
      if (firstCharIs cs lbraceC && lastCharIs cs rbraceC)
          || (firstCharIs cs '[' && lastCharIs cs ']') then
        if jsonOk content then "json" else "text"
      else "text"

/-! ## Framework selector (`_select_framework`) -/

def framework_names : List String := ["financial", "sales", "operational", "general"]

def retail_terms : List String := ["retail", "e-commerce", "store", "shop"]

def manufacturing_terms : List String := ["manufacturing", "factory", "production", "plant"]

def banking_terms : List String := ["bank", "finance", "investment", "accounting"]

/-- Embedding of `_select_framework`.  The business-category keyword
branches return early only when the detected domain is `general`;
otherwise control falls to the final `return detected if detected in
self.FRAMEWORKS else "general"`. -/
def select_framework (schema : Schema) (business_type : String) : String :=
  let detected := schema.type
  let bl := pyLower business_type
  let fallback := if detected ∈ framework_names then detected else "general"
  if retail_terms.any (fun t => strContains bl t) then
    if detected = "general" then "sales" else fallback
  else if manufacturing_terms.any (fun t => strContains bl t) then
    if detected = "general" then "operational" else fallback
  else if banking_terms.any (fun t => strContains bl t) then
    if detected = "general" then "financial" else fallback
  else fallback

/-! ## Tabular model

`pandas` is an external library; its behaviour on the simple delimited
numeric text exercised by the claims is modelled here: blank lines are
skipped, the first line is the header, every data row must have exactly
the header's field count (the NaN padding / index promotion of pandas
for ragged rows is not modelled — no verified input is ragged, and a
ragged input is simply a parse failure `none`), and a column is numeric
when every cell parses as a (decimal) number. -/

inductive Cell where
  | num (q : ℚ)
  | str (s : String)
deriving DecidableEq

structure Table where
  header : List String
  rows : List (List Cell)
deriving DecidableEq

def digitsVal (l : List Char) : ℚ :=
  l.foldl (fun acc c => acc * 10 + ((c.toNat - 48 : ℕ) : ℚ)) 0

/-- Decimal literals `123`, `123.45`, `.5`, `1.` (scientific notation
and thousands separators are not modelled; no verified input uses
them). -/
def parseUnsignedQ (l : List Char) : Option ℚ :=
  match l.span Char.isDigit with
  | (ds, []) => if ds.isEmpty then none else some (digitsVal ds)
  | (ds, '.' :: fs) =>
    if fs.all Char.isDigit && !(ds.isEmpty && fs.isEmpty) then
      some (digitsVal ds + digitsVal fs / ((10 : ℚ) ^ fs.length))
    else none
  | _ => none

def parseNumQ (l : List Char) : Option ℚ :=
  match l with
  | '-' :: rest => (parseUnsignedQ rest).map (fun q => -q)
  | '+' :: rest => parseUnsignedQ rest
  | _ => parseUnsignedQ l

def parseCell (s : String) : Cell :=
  match parseNumQ s.data with
  | some q => .num q
  | none => .str s

def Cell.isNum : Cell → Bool
  | .num _ => true
  | .str _ => false

def Cell.toNum : Cell → Option ℚ
  | .num q => some q
  | .str _ => none

def cellNumD (c : Cell) : ℚ := c.toNum.getD 0

def cellStrD : Cell → String
  | .str s => s
  | .num _ => ""

/-- Model of `pd.read_csv(io.StringIO(content), sep=sep)`; `none` is a
raised `ParserError` / `EmptyDataError`. -/
def pdReadCsv (sep : Char) (content : String) : Option Table :=
  let ls := (splitOnChar '\n' content.data).filter (fun l => !l.isEmpty)
  match ls with
  | [] => none
  | h :: rest =>
    let header := (splitOnChar sep h).map (fun f => (⟨f⟩ : String))
    let rows := rest.map (fun l => (splitOnChar sep l).map (fun f => parseCell ⟨f⟩))
    if rows.all (fun r => r.length == header.length) then some ⟨header, rows⟩ else none

/-- Model of the retry `pd.read_csv(io.StringIO(content), header=None)`:
every line is data, columns get the positional names `str(0), str(1), …`. -/
def pdReadCsvNoHeader (content : String) : Option Table :=
  let ls := (splitOnChar '\n' content.data).filter (fun l => !l.isEmpty)
  match ls with
  | [] => none
  | h :: _ =>
    let w := (splitOnChar ',' h).length
    let rows := ls.map (fun l => (splitOnChar ',' l).map (fun f => parseCell ⟨f⟩))
    if rows.all (fun r => r.length == w) then
      some ⟨(List.range w).map toString, rows⟩
    else none

/-- The columns of a table, in order, with their cells. -/
def Table.colCells (t : Table) : List (String × List Cell) :=
  (List.range t.header.length).map (fun i =>
    (t.header.getD i "", t.rows.map (fun r => r.getD i (.str ""))))

/-- `df.select_dtypes(include=[np.number])`: the columns all of whose
cells are numeric (an empty column has object dtype in pandas and is
not numeric). -/
def numericColumnsOf (t : Table) : List (String × List ℚ) :=
  t.colCells.filterMap (fun (n, cs) =>
    if !cs.isEmpty && cs.all Cell.isNum then some (n, cs.filterMap Cell.toNum) else none)

def colIndex (t : Table) (name : String) : Option Nat := t.header.findIdx? (· == name)

/-- Strict code-point lexicographic order (Python string `<`). -/
def charListLt : List Char → List Char → Bool
  | [], [] => false
  | [], _ :: _ => true
  | _ :: _, [] => false
  | a :: as, b :: bs => if a = b then charListLt as bs else decide (a < b)

def insertRow (lt : List Cell → List Cell → Bool) (x : List Cell) :
    List (List Cell) → List (List Cell)
  | [] => [x]
  | y :: ys => if lt x y then x :: y :: ys else y :: insertRow lt x ys

/-- Stable insertion sort of the rows (strict comparison, so equal keys
keep their order, like a stable pandas sort). -/
def sortRows (lt : List Cell → List Cell → Bool) (rows : List (List Cell)) :
    List (List Cell) :=
  rows.foldl (fun acc r => insertRow lt r acc) []

/-- Model of `df.sort_values(col)`: sorts by a fully numeric or fully
string column; a missing column (`KeyError`) or a mixed-type column
(`TypeError` during comparison) is the failure `none`, which every
caller catches.  (This branch is not reached by any verified input.) -/
def sortByCol (t : Table) (name : String) : Option Table :=
  match colIndex t name with
  | none => none
  | some i =>
    let key := fun (r : List Cell) => r.getD i (.str "")
    let cells := t.rows.map key
    if cells.all Cell.isNum then
      some { t with rows := sortRows (fun a b => decide (cellNumD (key a) < cellNumD (key b))) t.rows }
    else if cells.all (fun c => !c.isNum) then
      some { t with rows := sortRows (fun a b => charListLt (cellStrD (key a)).data (cellStrD (key b)).data) t.rows }
    else none

/-! ## Framework analyzers

Of the four framework analyzers only the financial one has its result
inspected by a claim (C6).  The sales / operational / general analyses
are written into the metrics bundle by `generate_report` but read only
by the prompt builder of the external AI call, which is not part of the
embedding; the operational analysis moreover stores sample standard
deviations, which are irrational in general and not representable in
the exact `ℚ` model.  They are therefore carried as opaque tags. -/

structure FinAnalysis where
  gross_margin : Option (ℚ × ℚ) := none
  revenue_growth : Option ℚ := none
deriving DecidableEq

inductive FrameworkAnalysis where
  | financialA (a : FinAnalysis)
  | salesA
  | operationalA
  | generalA
deriving DecidableEq

def revenue_keywords : List String := ["revenue", "sales", "income", "gross"]

def cost_keywords : List String := ["cost", "expense", "cogs", "operating"]

/-- Embedding of `_financial_framework`: gross margin (amount and
percentage, the percentage zero-guarded by the source) from the first
revenue-keyword and first cost-keyword numeric columns, and revenue
growth between the first and last rows after sorting by the first
column whose name contains `date`. -/
def financial_framework (df : Option Table) : FinAnalysis :=
  match df with
  | none => {}
  | some t =>
    if t.rows.length = 0 then {} else
    let numCols := numericColumnsOf t
    let revenue_cols := numCols.filter (fun (n, _) =>
      revenue_keywords.any (fun kw => strContains (pyLower n) kw))
    let cost_cols := numCols.filter (fun (n, _) =>
      cost_keywords.any (fun kw => strContains (pyLower n) kw))
    let gm : Option (ℚ × ℚ) :=
      match revenue_cols, cost_cols with
      | (_, rv) :: _, (_, cv) :: _ =>
        some (rv.sum - cv.sum, if rv.sum ≠ 0 then (rv.sum - cv.sum) / rv.sum * 100 else 0)
      | _, _ => none
    let date_cols := t.header.filter (fun n => strContains (pyLower n) "date")
    let growth : Option ℚ :=
      match date_cols, revenue_cols with
      | dcol :: _, (rname, _) :: _ =>
        match sortByCol t dcol with
        | none => none
        | some ts =>
          if 1 < ts.rows.length then
            match colIndex ts rname, ts.rows.head?, ts.rows.getLast? with
            | some ri, some fr, some lr =>
              match (fr.getD ri (.str "")).toNum, (lr.getD ri (.str "")).toNum with
              | some a, some b => if a ≠ 0 then some ((b - a) / a * 100) else none
              | _, _ => none
            | _, _, _ => none
          else none
      | _, _ => none
    { gross_margin := gm, revenue_growth := growth }

/-! ## Metrics extractor (`_extract_metrics`) -/

structure ColStats where
  sum : Option ℚ := none
  mean : Option ℚ := none
  median : Option ℚ := none
  min : Option ℚ := none
  max : Option ℚ := none
  std : Option ℚ := none
  count : Option Nat := none
  missing : Option Nat := none
  zeros : Option Nat := none
deriving DecidableEq

def emptyStats : ColStats := {}

structure DataQuality where
  missing_percentage : ℚ := 0
  duplicate_percentage : ℚ := 0
deriving DecidableEq

/-- The `date_range` record (the source key `end` is a Lean keyword and
is called `stop` here). -/
structure DateRange where
  start : String
  stop : String
  days : Nat
deriving DecidableEq

/-- The metrics dictionary.  Fields of the source dict consumed only by
the prompt builder of the external AI call (`raw_sample`,
`parsing_method`, `schema`, `columns`, `sample_data`, the cell counters
of `data_quality`) are not modelled — no claim and no embedded stage
reads them. -/
structure Metrics where
  row_count : Nat := 0
  column_count : Nat := 0
  numeric_columns : List String := []
  calculated : List (String × ColStats) := []
  separator : Option String := none
  has_header : Option Bool := none
  date_columns : List String := []
  date_range : Option DateRange := none
  data_quality : Option DataQuality := none
  parse_error : Option String := none
  framework_analysis : Option FrameworkAnalysis := none

def csvSeps : List Char := [',', '\t', ';', '|']

def sepName (c : Char) : String := ⟨[c]⟩

def insertSortedQ (x : ℚ) : List ℚ → List ℚ
  | [] => [x]
  | y :: ys => if x ≤ y then x :: y :: ys else y :: insertSortedQ x ys

def sortQ (l : List ℚ) : List ℚ := l.foldr insertSortedQ []

def medianQ (vals : List ℚ) : ℚ :=
  let s := sortQ vals
  let n := s.length
  if n % 2 = 1 then s.getD (n / 2) 0
  else (s.getD (n / 2 - 1) 0 + s.getD (n / 2) 0) / 2

def minQ (vals : List ℚ) : ℚ := (sortQ vals).headD 0

def maxQ (vals : List ℚ) : ℚ := (sortQ vals).getLastD 0

/-- The per-column statistics of `_extract_metrics` for a non-empty
numeric column.  The model has no NaN cells, so `missing = 0` and the
aggregates run over all values.  The sample standard deviation is an
irrational square root in general and is not representable in `ℚ`; the
source's `0.0` for a single value is kept, larger samples store no
value — no verified claim reads `std` out of the extractor. -/
def mkStats (vals : List ℚ) : ColStats :=
  let n := vals.length
  { sum := some vals.sum
    mean := some (vals.sum / (n : ℚ))
    median := some (medianQ vals)
    min := some (minQ vals)
    max := some (maxQ vals)
    std := if n ≤ 1 then some 0 else none
    count := some n
    missing := some 0
    zeros := some (vals.countP (fun q => q == 0)) }

def dupRowCountAux : List (List Cell) → List (List Cell) → Nat
  | _, [] => 0
  | seen, r :: rest => (if r ∈ seen then 1 else 0) + dupRowCountAux (r :: seen) rest

/-- `df.duplicated().sum()`: the number of rows equal to an earlier row. -/
def dupRowCount (rows : List (List Cell)) : Nat := dupRowCountAux [] rows

def normalizeTable (t : Table) : Table :=
  { t with header := t.header.map (fun n => pyLower (spacesToUnderscores (pyStrip n))) }

/-- The `if df is not None` block of `_extract_metrics`: normalized
column names, shape, numeric columns, per-column statistics for the
first 10 numeric columns, and the data-quality percentages.  Date
column detection (an external `pd.to_datetime` call) is not modelled:
no claim reads `date_columns` / `date_range`, and the conversion runs
after the numeric statistics are recorded, so it cannot change any
verified value. -/
def fillStats (t : Table) (m : Metrics) : Metrics :=
  let numCols := numericColumnsOf t
  { m with
    row_count := t.rows.length
    column_count := t.header.length
    numeric_columns := numCols.map (fun p => p.1)
    calculated := (numCols.take 10).filterMap (fun (n, vals) =>
      if vals.isEmpty then none else some (n, mkStats vals))
    data_quality := some
      { missing_percentage := 0
        duplicate_percentage :=
          if t.rows.length = 0 then 0
          else ((dupRowCount t.rows : ℕ) : ℚ) * 100 / (t.rows.length : ℚ) } }

/-- Embedding of `_extract_metrics`.  The separator loop records the
first separator for which the parse does not raise; on total failure it
retries with no header.  The JSON branch delegates to the external
`json.loads`-based decoding, given as the oracle `jsonDf` (no verified
claim passes `data_type = "json"`). -/
def extract_metrics (jsonDf : String → Option Table)
    (content data_type : String) (schema : Schema) : Option Table × Metrics :=
  let m0 : Metrics := {}
  let dfm : Option Table × Metrics :=
    if data_type = "csv" then
      match csvSeps.find? (fun sep => (pdReadCsv sep content).isSome) with
      | some sep => (pdReadCsv sep content, { m0 with separator := some (sepName sep) })
      | none =>
        match pdReadCsvNoHeader content with
        | some t => (some t, { m0 with has_header := some false })
        | none => (none, m0)
    else if data_type = "json" then (jsonDf content, m0)
    else (none, m0)
  match dfm.1 with
  | some t =>
    let tn := normalizeTable t
    (some tn, fillStats tn dfm.2)
  | none => (none, dfm.2)

/-! ### Claim C6 -/

def c6content : String := "Month,Revenue,Cost\nJan,100000,70000\nFeb,120000,80000"

def c6schema : Schema := detect_schema c6content "General Business"

def c6extract : Option Table × Metrics :=
  extract_metrics (fun _ => none) c6content "csv" c6schema

/-! ### Claim C7 -/

/-- Formalisation of the selection rule in the claim's words: the first
delimiter of the priority order yielding a parseable AND non-degenerate
table — one that actually splits the input into at least two fields. -/
def specFirstNonDegenerateSep (content : String) : Option Char :=
  csvSeps.find? (fun sep =>
    match pdReadCsv sep content with
    | some t => decide (2 ≤ t.header.length)
    | none => false)

def c7content : String := "a;b\n1;2"

/-! ## Report templates (`_load_templates`) -/

/-- `self.TEMPLATES[...]["sections"]`, with the source's
`TEMPLATES.get(framework, TEMPLATES["general"])` default.  The `kpis`
lists are never read by any embedded stage and are not modelled. -/
def template_sections (framework : String) : List String :=
  if framework = "financial" then
    ["Executive Summary", "Revenue Analysis", "Cost Structure", "Profitability Metrics",
     "Cash Flow Assessment", "Risk Factors", "Recommendations"]
  else if framework = "sales" then
    ["Executive Summary", "Pipeline Analysis", "Conversion Metrics",
     "Performance by Segment", "Trends & Forecasting", "Action Items"]
  else if framework = "operational" then
    ["Operations Overview", "Efficiency Metrics", "Quality Indicators",
     "Capacity Utilization", "Bottleneck Analysis", "Optimization Recommendations"]
  else
    ["Executive Summary", "Data Overview", "Key Insights", "Trend Analysis", "Recommendations"]

/-- `self.TEMPLATES.get(framework, {}).get("default_focus", "full")`. -/
def default_focus (framework : String) : String :=
  if framework = "financial" then "profit"
  else if framework = "sales" then "growth"
  else if framework = "operational" then "full"
  else if framework = "general" then "full"
  else "full"

/-- Quotes a word with apostrophes for the placeholder texts. -/
def q1 (w : String) : String := apostS ++ w ++ apostS

/-- Embedding of `_generate_recommendations` (the list form). -/
def generate_recommendations (framework : String) (m : Metrics)
    (report_focus : String) (user_role : Option String) : List String :=
  let base :=
    if framework = "financial" then
      ["Review cost structure for optimization opportunities",
       "Analyze revenue streams for diversification potential",
       "Monitor cash flow and working capital requirements",
       "Conduct regular profitability analysis by product/service",
       "Implement financial controls for expense management"]
    else if framework = "sales" then
      ["Focus on improving conversion rates in key pipeline stages",
       "Analyze win/loss reasons to improve sales effectiveness",
       "Segment customers for targeted sales strategies",
       "Regularly update sales forecasts based on pipeline health",
       "Provide additional training for underperforming segments"]
    else if framework = "operational" then
      ["Identify and address production bottlenecks",
       "Implement quality control measures based on defect analysis",
       "Optimize inventory levels to reduce carrying costs",
       "Analyze capacity utilization for efficiency improvements",
       "Standardize processes to reduce variability"]
    else
      ["Collect additional data for more comprehensive analysis",
       "Establish regular reporting cadence for key metrics",
       "Validate data quality before making major decisions",
       "Cross-reference findings with operational knowledge",
       "Set up automated data collection where possible"]
  let base :=
    if report_focus = "profit" then "Prioritize profitability improvement initiatives" :: base
    else if report_focus = "growth" then "Focus on growth-oriented investments and strategies" :: base
    else if report_focus = "loss" then "Immediate cost containment and risk mitigation" :: base
    else base
  match user_role with
  | some r =>
    let rl := pyLower r
    if strContains rl "executive" then
      "Establish key performance indicators aligned with strategic goals" ::
        base.filter (fun r0 => !(strContains (pyLower r0) "detailed"))
    else if strContains rl "analyst" then
      base ++ ["Conduct deeper statistical analysis on identified patterns",
               "Build automated dashboards for ongoing monitoring"]
    else base
  | none => base

def enumerate1 (l : List String) : List String :=
  l.enum.map (fun p => toString (p.1 + 1) ++ ". " ++ p.2)

/-- The `as_list=True` form of `_generate_recommendations` (numbered,
first five). -/
def generate_recommendations_list (framework : String) (m : Metrics)
    (report_focus : String) (user_role : Option String) : String :=
  String.intercalate "\n" (enumerate1 ((generate_recommendations framework m report_focus user_role).take 5))

/-- Embedding of `_generate_next_steps`. -/
def generate_next_steps (user_role : Option String) (framework : String) : List String :=
  let steps :=
    ["Review key metrics and validate against business expectations",
     "Implement priority recommendations within the next 30 days",
     "Schedule follow-up analysis in 30 days to track progress",
     "Consider collecting additional data for deeper insights"]
  let steps :=
    match user_role with
    | some r =>
      let rl := pyLower r
      if strContains rl "executive" then
        "Present findings to leadership team for strategic alignment" ::
        "Allocate resources based on priority recommendations" :: steps
      else if strContains rl "manager" then
        "Communicate insights to team members for implementation" ::
        "Set specific goals based on analysis findings" :: steps
      else if strContains rl "analyst" then
        ("Document analysis methodology and assumptions" :: steps) ++
        ["Explore additional analytical techniques for deeper insights"]
      else steps
    | none => steps
  if framework = "financial" then
    steps ++ ["Schedule financial review meeting with accounting team"]
  else if framework = "sales" then
    steps ++ ["Align sales team on identified opportunities and challenges"]
  else steps

/-! ## Section template generators (`_generate_template_section` and
the `_*_template` methods)

Each returns `Except String String`: formatting the `"N/A"` default of
a missing statistics key with `.2f` raises `ValueError` (`pyFmt2`), and
the coefficient-of-variation division in the revenue section can raise
`ZeroDivisionError` (`pyDiv`). -/

def executive_summary_template (m : Metrics) (framework report_focus : String)
    (df : Option Table) (user_role : Option String) : Except String String := do
  let mut s : Array String := #[]
  match user_role with
  | some r =>
    if strContains (pyLower r) "executive" then
      s := s.push ("**Executive Summary for " ++ r ++ "**")
      s := s.push ("This high-level analysis provides strategic insights based on " ++
        toString m.row_count ++ " data points.")
    else
      s := s.push ("This " ++ framework ++ " analysis report provides insights based on " ++
        toString m.row_count ++ " data points.")
  | none =>
    s := s.push ("This " ++ framework ++ " analysis report provides insights based on " ++
      toString m.row_count ++ " data points.")
  if m.calculated ≠ [] then
    for p in m.calculated.take 2 do
      s := s.push ("- Total " ++ p.1 ++ ": " ++ (← pyFmt2 p.2.sum))
      s := s.push ("- Average " ++ p.1 ++ ": " ++ (← pyFmt2 p.2.mean))
  s := s.push ("\n**Primary Focus:** " ++ pyTitle report_focus)
  s := s.push "**Key Finding:** Analysis reveals patterns and opportunities for optimization."
  return String.intercalate "\n" s.toList

def revenue_analysis_template (m : Metrics) (framework report_focus : String)
    (df : Option Table) (user_role : Option String) : Except String String := do
  let mut s : Array String := #[]
  let revenue_cols := m.numeric_columns.filter (fun col =>
    ["revenue", "sales", "income"].any (fun w => strContains (pyLower col) w))
  if revenue_cols ≠ [] then
    for col in revenue_cols.take 2 do
      let st := (m.calculated.lookup col).getD emptyStats
      s := s.push ("**" ++ col ++ " Analysis:**")
      s := s.push ("- Total: " ++ (← pyFmt2 st.sum))
      s := s.push ("- Average: " ++ (← pyFmt2 st.mean))
      s := s.push ("- Range: " ++ (← pyFmt2 st.min) ++ " to " ++ (← pyFmt2 st.max))
      if st.std.getD 0 > 0 then
        let cv := (← pyDiv (st.std.getD 0) (st.mean.getD 1)) * 100
        s := s.push ("- Variability: " ++ fmt1 cv ++ "% coefficient of variation")
  else
    s := s.push "*No revenue-specific columns identified in the data.*"
    s := s.push ("*Consider adding columns with names containing " ++ q1 "revenue" ++ ", " ++
      q1 "sales" ++ ", or " ++ q1 "income" ++ " for detailed revenue analysis.*")
  return String.intercalate "\n" s.toList

def cost_structure_template (m : Metrics) (framework report_focus : String)
    (df : Option Table) (user_role : Option String) : Except String String := do
  let mut s : Array String := #[]
  let cost_cols := m.numeric_columns.filter (fun col =>
    ["cost", "expense", "cogs", "expenditure"].any (fun w => strContains (pyLower col) w))
  if cost_cols ≠ [] then
    s := s.push "**Cost Structure Breakdown:**"
    for col in cost_cols.take 3 do
      let st := (m.calculated.lookup col).getD emptyStats
      s := s.push ("- **" ++ col ++ ":** " ++ (← pyFmt2 st.sum) ++ " total, " ++
        (← pyFmt2 st.mean) ++ " average")
    if 1 < cost_cols.length then
      let total := (cost_cols.map (fun col =>
        ((m.calculated.lookup col).getD emptyStats).sum.getD 0)).sum
      s := s.push ("\n**Total Identified Costs:** " ++ fmt2 total)
  else
    s := s.push "*No cost-specific columns identified.*"
    s := s.push ("*For cost analysis, include columns with " ++ q1 "cost" ++ ", " ++
      q1 "expense" ++ ", or similar terms.*")
  return String.intercalate "\n" s.toList

def profitability_template (m : Metrics) (framework report_focus : String)
    (df : Option Table) (user_role : Option String) : Except String String := do
  let mut s : Array String := #[]
  let revenue_cols := m.numeric_columns.filter (fun col =>
    ["revenue", "sales", "income"].any (fun w => strContains (pyLower col) w))
  let cost_cols := m.numeric_columns.filter (fun col =>
    ["cost", "expense", "cogs"].any (fun w => strContains (pyLower col) w))
  if revenue_cols ≠ [] ∧ cost_cols ≠ [] then
    let revenue := ((m.calculated.lookup (revenue_cols.headD "")).getD emptyStats).sum.getD 0
    let cost := ((m.calculated.lookup (cost_cols.headD "")).getD emptyStats).sum.getD 0
    if revenue > 0 then
      let gross_profit := revenue - cost
      let gross_margin := if revenue > 0 then gross_profit / revenue * 100 else 0
      s := s.push "**Profitability Analysis:**"
      s := s.push ("- Gross Profit: " ++ fmt2 gross_profit)
      s := s.push ("- Gross Margin: " ++ fmt1 gross_margin ++ "%")
      s := s.push ("- Revenue: " ++ fmt2 revenue)
      s := s.push ("- Costs: " ++ fmt2 cost)
      if gross_margin > 30 then
        s := s.push ("\n**Assessment:** Healthy profitability margin (" ++ fmt1 gross_margin ++ "%)")
      else if gross_margin > 10 then
        s := s.push ("\n**Assessment:** Moderate profitability (" ++ fmt1 gross_margin ++
          "%) - room for improvement")
      else
        s := s.push ("\n**Assessment:** Low profitability (" ++ fmt1 gross_margin ++
          "%) - requires attention")
  else
    s := s.push "*Insufficient data for detailed profitability analysis.*"
    s := s.push "*Required: Both revenue and cost columns in numeric format.*"
  return String.intercalate "\n" s.toList

def recommendations_template (m : Metrics) (framework report_focus : String)
    (df : Option Table) (user_role : Option String) : Except String String :=
  .ok (generate_recommendations_list framework m report_focus user_role)

def data_overview_template (m : Metrics) (framework report_focus : String)
    (df : Option Table) (user_role : Option String) : Except String String := do
  let mut s : Array String := #[]
  s := s.push "**Dataset Overview:**"
  s := s.push ("- Total Rows: " ++ toString m.row_count)
  s := s.push ("- Total Columns: " ++ toString m.column_count)
  s := s.push ("- Numeric Columns: " ++ toString m.numeric_columns.length)
  match m.data_quality with
  | some dq =>
    s := s.push "\n**Data Quality:**"
    s := s.push ("- Missing Values: " ++ fmt1 dq.missing_percentage ++ "%")
    s := s.push ("- Duplicate Rows: " ++ fmt1 dq.duplicate_percentage ++ "%")
  | none => pure ()
  match m.date_range with
  | some dr =>
    s := s.push "\n**Time Coverage:**"
    s := s.push ("- From: " ++ dr.start)
    s := s.push ("- To: " ++ dr.stop)
    s := s.push ("- Duration: " ++ toString dr.days ++ " days")
  | none => pure ()
  return String.intercalate "\n" s.toList

def key_insights_template (m : Metrics) (framework report_focus : String)
    (df : Option Table) (user_role : Option String) : Except String String := do
  let mut s : Array String := #[]
  s := s.push "**Key Insights from Data Analysis:**"
  if m.calculated ≠ [] then
    for p in m.calculated.take 3 do
      let mean := p.2.mean.getD 0
      let std := p.2.std.getD 0
      if std > 0 then
        let cv := if mean ≠ 0 then std / mean * 100 else 0
        if cv > 50 then
          s := s.push ("- **High variability in " ++ p.1 ++ ":** " ++ fmt1 cv ++
            "% coefficient of variation suggests inconsistent performance")
        else if cv < 10 then
          s := s.push ("- **Stable performance in " ++ p.1 ++ ":** Low variability (" ++
            fmt1 cv ++ "%) indicates consistent results")
  if ((m.data_quality.map (fun dq => dq.missing_percentage)).getD 0) > 20 then
    s := s.push ("- **Data quality concern:** " ++
      fmt1 ((m.data_quality.map (fun dq => dq.missing_percentage)).getD 0) ++
      "% missing values may affect analysis reliability")
  if framework = "financial" then
    s := s.push "- Financial analysis framework applied to identify revenue and cost patterns"
  else if framework = "sales" then
    s := s.push "- Sales framework used to analyze performance and conversion metrics"
  else if framework = "operational" then
    s := s.push "- Operational framework applied to assess efficiency and productivity"
  return String.intercalate "\n" s.toList

/-- The try-block of the trend section: sort by the date column, and
return the first and last values of the first numeric column when the
sorted table has more than two rows; `Except.error` is a caught
exception (missing column, mixed-type sort, arithmetic on a string). -/
def trendVals (t : Table) (dcol ncol : String) : Except Unit (Option (ℚ × ℚ)) :=
  match sortByCol t dcol with
  | none => .error ()
  | some ts =>
    if 2 < ts.rows.length then
      match colIndex ts ncol, ts.rows.head?, ts.rows.getLast? with
      | some ri, some fr, some lr =>
        match fr.getD ri (.str ""), lr.getD ri (.str "") with
        | .num a, .num b => .ok (some (a, b))
        | .num a, .str _ => if a = 0 then .ok none else .error ()
        | .str _, _ => .error ()
      | _, _, _ => .error ()
    else .ok none

def trend_analysis_template (m : Metrics) (framework report_focus : String)
    (df : Option Table) (user_role : Option String) : Except String String := do
  let mut s : Array String := #[]
  s := s.push "**Trend Analysis:**"
  if m.date_range.isSome ∧ m.calculated ≠ [] then
    let dr := m.date_range.getD ⟨"", "", 0⟩
    s := s.push ("- Data covers period from " ++ dr.start ++ " to " ++ dr.stop)
    match m.numeric_columns, df, m.date_columns with
    | ncol :: _, some t, dcol :: _ =>
      match trendVals t dcol ncol with
      | .error _ => s := s.push "- Trend analysis requires proper date formatting and numeric data"
      | .ok none => pure ()
      | .ok (some (a, b)) =>
        if a ≠ 0 then
          let trend_pct := (b - a) / a * 100
          let direction := if trend_pct > 0 then "increasing" else "decreasing"
          s := s.push ("- **" ++ ncol ++ " trend:** " ++ direction ++ " by " ++
            fmt1 (abs trend_pct) ++ "% over the period")
    | _, _, _ => pure ()
  else
    s := s.push "*Trend analysis requires date-based data with time series.*"
    s := s.push "*Ensure your data includes a date column for time-based analysis.*"
  return String.intercalate "\n" s.toList

def risk_assessment_template (m : Metrics) (framework report_focus : String)
    (df : Option Table) (user_role : Option String) : Except String String := do
  let mut s : Array String := #[]
  s := s.push "**Risk Assessment:**"
  if ((m.data_quality.map (fun dq => dq.missing_percentage)).getD 0) > 10 then
    s := s.push ("- **Data Quality Risk:** " ++
      fmt1 ((m.data_quality.map (fun dq => dq.missing_percentage)).getD 0) ++
      "% missing data may lead to inaccurate conclusions")
  if m.calculated ≠ [] then
    for p in m.calculated.take 2 do
      let std := p.2.std.getD 0
      let mean := p.2.mean.getD 0
      if mean ≠ 0 ∧ std > 0 then
        if std > mean * (1 / 2) then
          s := s.push ("- **Volatility Risk:** High variability in " ++ p.1 ++
            " (std/mean = " ++ fmt2 (std / mean) ++ ") indicates instability")
  if framework = "financial" then
    s := s.push "- **Financial Risk:** Revenue concentration or high fixed costs could impact stability"
  else if framework = "sales" then
    s := s.push "- **Sales Risk:** Pipeline gaps or low conversion rates may affect future revenue"
  else if framework = "operational" then
    s := s.push "- **Operational Risk:** Bottlenecks or quality issues could impact customer satisfaction"
  match user_role with
  | some r =>
    if strContains (pyLower r) "executive" then
      s := s.push "- **Strategic Risk:** Market shifts or competitive pressures not captured in current data"
  | none => pure ()
  return String.intercalate "\n" s.toList

def default_section_template (m : Metrics) (framework report_focus : String)
    (df : Option Table) (user_role : Option String) : Except String String :=
  let role_context := match user_role with
    | some r => " for " ++ r
    | none => ""
  .ok ("Analysis of this section would provide insights into the " ++ framework ++
    " aspects of the business" ++ role_context ++
    ". Based on the data, key metrics and patterns can be identified to support decision-making. For more detailed analysis, ensure data includes relevant columns for " ++
    framework ++ " analysis.")

/-- The section-name dispatch of `_generate_template_section`. -/
def generate_template_section (sec : String) (m : Metrics) (framework report_focus : String)
    (df : Option Table) (user_role : Option String) : Except String String :=
  if sec = "Executive Summary" then executive_summary_template m framework report_focus df user_role
  else if sec = "Revenue Analysis" then revenue_analysis_template m framework report_focus df user_role
  else if sec = "Cost Structure" then cost_structure_template m framework report_focus df user_role
  else if sec = "Profitability Metrics" then profitability_template m framework report_focus df user_role
  else if sec = "Recommendations" then recommendations_template m framework report_focus df user_role
  else if sec = "Data Overview" then data_overview_template m framework report_focus df user_role
  else if sec = "Key Insights" then key_insights_template m framework report_focus df user_role
  else if sec = "Trend Analysis" then trend_analysis_template m framework report_focus df user_role
  else if sec = "Risk Assessment" then risk_assessment_template m framework report_focus df user_role
  else default_section_template m framework report_focus df user_role

/-- Embedding of `_generate_template_report`.  `today` / `timeNow` are
the strings `datetime.now()` renders (`%Y-%m-%d` and `%H:%M:%S`); the
`data_content` parameter is unused, as in the source. -/
def generate_template_report (today timeNow : String) (data_content : String)
    (m : Metrics) (framework : String) (schema : Schema)
    (user_name report_focus : String) (df : Option Table)
    (user_role : Option String) : Except String String := do
  let mut parts : Array String := #[]
  parts := parts.push "# Business Intelligence Report"
  parts := parts.push ("**Generated for:** " ++ user_name)
  match user_role with
  | some r => parts := parts.push ("**User Role:** " ++ r)
  | none => pure ()
  parts := parts.push ("**Date:** " ++ today)
  parts := parts.push ("**Industry:** " ++ schema.business_type)
  parts := parts.push ("**Framework:** " ++ pyTitle framework ++ " Analysis")
  parts := parts.push ("**Focus:** " ++ pyTitle report_focus)
  parts := parts.push ("**Data Points:** " ++ toString m.row_count)
  parts := parts.push ("**Confidence:** " ++ fmtPct1 schema.confidence)
  parts := parts.push "\n## Key Metrics Summary\n"
  if m.calculated ≠ [] then
    for p in m.calculated.take 5 do
      parts := parts.push ("- **" ++ p.1 ++ ":** Sum = " ++ (← pyFmt2 p.2.sum) ++
        ", Avg = " ++ (← pyFmt2 p.2.mean))
  else
    parts := parts.push "*No numeric metrics available for calculation*"
  for sec in template_sections framework do
    parts := parts.push ("\n## " ++ sec ++ "\n")
    parts := parts.push (← generate_template_section sec m framework report_focus df user_role)
  parts := parts.push "\n## Actionable Recommendations\n"
  for p in (generate_recommendations framework m report_focus user_role).enum do
    parts := parts.push (toString (p.1 + 1) ++ ". " ++ p.2)
  parts := parts.push "\n## Data Quality Notes\n"
  match m.data_quality with
  | some dq =>
    parts := parts.push ("- Missing data: " ++ fmt1 dq.missing_percentage ++ "%")
    parts := parts.push ("- Duplicate rows: " ++ fmt1 dq.duplicate_percentage ++ "%")
  | none =>
    parts := parts.push "*Data quality assessment not available*"
  parts := parts.push "\n## Next Steps & Further Analysis\n"
  for p in (generate_next_steps user_role framework).enum do
    parts := parts.push (toString (p.1 + 1) ++ ". " ++ p.2)
  parts := parts.push "\n---"
  parts := parts.push ("*Report generated automatically on " ++ today ++ " at " ++ timeNow ++ "*")
  parts := parts.push "*Method: Template-based analysis with calculated metrics*"
  match user_role with
  | some r => parts := parts.push ("*Tailored for: " ++ r ++ "*")
  | none => pure ()
  return String.intercalate "\n" parts.toList

/-! ## Hybrid merge (`_generate_hybrid_report` and its helpers) -/

/-- Ordered insert-or-overwrite, the behaviour of a Python dict
assignment. -/
def dictInsert (k v : String) : List (String × String) → List (String × String)
  | [] => [(k, v)]
  | (k2, v2) :: rest => if k2 = k then (k2, v) :: rest else (k2, v2) :: dictInsert k v rest

def extractSectionsAux : List (List Char) → String → List String →
    List (String × String) → List (String × String)
  | [], cur, content, acc =>
    if cur ≠ "" ∧ content ≠ [] then
      dictInsert cur (pyStrip (String.intercalate "\n" content.reverse)) acc
    else acc
  | l :: rest, cur, content, acc =>
    if startsWithL "## ".data l ∧ ¬ startsWithL "###".data l = true then
      let acc2 :=
        if cur ≠ "" ∧ content ≠ [] then
          dictInsert cur (pyStrip (String.intercalate "\n" content.reverse)) acc
        else acc
      extractSectionsAux rest (pyStrip ⟨l.drop 3⟩) [] acc2
    else if cur ≠ "" then extractSectionsAux rest cur ((⟨l⟩ : String) :: content) acc
    else extractSectionsAux rest cur content acc

/-- Embedding of `_extract_sections_from_ai`: splits a markdown report
at its `## ` headings (ignoring `###`). -/
def extract_sections_from_ai (ai_report : String) : List (String × String) :=
  extractSectionsAux (splitOnChar '\n' ai_report.data) "" [] []

/-- Python words of a string (`str.split()`), needed for the keyword
fallback of the section matcher. -/
def pyWordsAux : List Char → List Char → List String
  | [], cur => if cur.isEmpty then [] else [⟨cur.reverse⟩]
  | c :: rest, cur =>
    if isWS c then
      if cur.isEmpty then pyWordsAux rest []
      else (⟨cur.reverse⟩ : String) :: pyWordsAux rest []
    else pyWordsAux rest (c :: cur)

def pyWords (s : String) : List String := pyWordsAux s.data []

def findKeywordScan (keywords : List String) : List (List Char) → Bool → List String → List String
  | [], _, acc => acc.reverse
  | l :: rest, inSec, acc =>
    if startsWithL "## ".data l then
      if keywords.any (fun kw => strContains (pyLower ⟨l⟩) kw) then
        findKeywordScan keywords rest true acc
      else if inSec then acc.reverse
      else findKeywordScan keywords rest false acc
    else if inSec then findKeywordScan keywords rest inSec ((⟨l⟩ : String) :: acc)
    else findKeywordScan keywords rest inSec acc

/-- Embedding of `_find_section_in_ai`: exact heading match, then
substring match in either direction, then a keyword scan over the full
report; the empty string means "not found". -/
def find_section_in_ai (section_name : String) (sections : List (String × String))
    (full_report : String) : String :=
  match sections.lookup section_name with
  | some c => c
  | none =>
    match sections.find? (fun p =>
        strContains (pyLower p.1) (pyLower section_name) ||
        strContains (pyLower section_name) (pyLower p.1)) with
    | some p => p.2
    | none =>
      let keywords := pyWords (pyLower section_name)
      let content := findKeywordScan keywords (splitOnChar '\n' full_report.data) false []
      if content ≠ [] then pyStrip (String.intercalate "\n" content) else ""

/-- Embedding of `_generate_hybrid_report`: template section order,
with AI content when a matching heading exists and the deterministic
generator otherwise. -/
def generate_hybrid_report (today timeNow : String) (ai_report data_content : String)
    (m : Metrics) (framework : String) (schema : Schema)
    (user_name report_focus : String) (df : Option Table)
    (user_role : Option String) : Except String String := do
  let sections := extract_sections_from_ai ai_report
  let mut parts : Array String := #[]
  parts := parts.push "# Business Intelligence Report\n"
  parts := parts.push ("**Generated for:** " ++ user_name ++ "\n")
  match user_role with
  | some r => parts := parts.push ("**User Role:** " ++ r ++ "\n")
  | none => pure ()
  parts := parts.push ("**Date:** " ++ today ++ "\n")
  parts := parts.push ("**Framework:** " ++ pyTitle framework ++ " Analysis\n")
  parts := parts.push ("**Focus:** " ++ pyTitle report_focus ++ "\n")
  if m.calculated ≠ [] then
    parts := parts.push "\n## Key Metrics at a Glance\n"
    for p in m.calculated.take 3 do
      parts := parts.push ("- **" ++ p.1 ++ ":** Total = " ++ (← pyFmt2 p.2.sum) ++
        ", Average = " ++ (← pyFmt2 p.2.mean))
  for sec in template_sections framework do
    parts := parts.push ("\n## " ++ sec ++ "\n")
    let ai_content := find_section_in_ai sec sections ai_report
    if ai_content ≠ "" then
      parts := parts.push ai_content
    else
      parts := parts.push (← generate_template_section sec m framework report_focus df user_role)
  parts := parts.push "\n## Data Summary & Methodology\n"
  parts := parts.push "- Analysis performed using hybrid AI-Template approach"
  parts := parts.push ("- Data points analyzed: " ++ toString m.row_count)
  parts := parts.push ("- Confidence score: " ++ fmtPct1 schema.confidence)
  parts := parts.push ("- User role considered: " ++
    (match user_role with | some r => r | none => "Not specified"))
  parts := parts.push ("- Report generated: " ++ today ++ " " ++ timeNow)
  return String.intercalate "\n" parts.toList

/-! ## Generation orchestrator (`_generate_with_fallback`) -/

/-- The generation tiers of the orchestrator. -/
inductive Tier where
  | ai
  | hybrid
  | template
deriving DecidableEq

/-- Embedding of `_generate_with_fallback`.  `ai_outcome` is the result
of `_generate_ai_report` (an external Groq call, including its internal
one-time downgrade to the fast model): `.ok` is returned text, `.error`
a raised exception.  The returned list records the tiers the control
flow entered, in order.  Control-flow notes mirrored from the source:
an exception raised by the AI call is caught at the end of the `try`
block and goes directly to the template generator — the hybrid branch
runs only when AI output was returned but failed validation; an
exception raised inside the hybrid merge is caught by the same handler,
which calls the template generator; and a template-generator exception
raised inside the `try` is caught by the handler, whose own template
call deterministically raises the same error again, so the outcome
equals a single template call. -/
def generate_with_fallback (ai_available : Bool) (ai_outcome : Except Unit String)
    (today timeNow : String) (data_content : String) (m : Metrics) (framework : String)
    (schema : Schema) (user_name report_focus : String) (df : Option Table)
    (user_role : Option String) : List Tier × Except String String :=
  if ai_available then
    match ai_outcome with
    | .error _ =>
      ([.ai, .template],
        generate_template_report today timeNow data_content m framework schema user_name report_focus df user_role)
    | .ok ai_report =>
      if validate_report ai_report then ([.ai], .ok ai_report)
      else
        match generate_hybrid_report today timeNow ai_report data_content m framework schema user_name report_focus df user_role with
        | .error _ =>
          ([.ai, .hybrid, .template],
            generate_template_report today timeNow data_content m framework schema user_name report_focus df user_role)
        | .ok hybrid_report =>
          if validate_report hybrid_report then ([.ai, .hybrid], .ok hybrid_report)
          else
            ([.ai, .hybrid, .template],
              generate_template_report today timeNow data_content m framework schema user_name report_focus df user_role)
  else
    ([.template],
      generate_template_report today timeNow data_content m framework schema user_name report_focus df user_role)

/-! ## Output formatter (`_convert_to_html`) -/

def htmlStep (st : List String × Bool) (lineL : List Char) : List String × Bool :=
  let html := st.1
  let in_list := st.2
  let ls : String := pyStrip ⟨lineL⟩
  if startsWithL "# ".data lineL then
    (html ++ ["<h1>" ++ (⟨lineL.drop 2⟩ : String) ++ "</h1>"], in_list)
  else if startsWithL "## ".data lineL then
    (html ++ ["<h2>" ++ (⟨lineL.drop 3⟩ : String) ++ "</h2>"], in_list)
  else if startsWithL "### ".data lineL then
    (html ++ ["<h3>" ++ (⟨lineL.drop 4⟩ : String) ++ "</h3>"], in_list)
  else if startsWithL "- ".data ls.data then
    ((if !in_list then html ++ ["<ul>"] else html) ++ ["<li>" ++ ls.drop 2 ++ "</li>"], true)
  else if startsWithL "* ".data ls.data then
    ((if !in_list then html ++ ["<ul>"] else html) ++ ["<li>" ++ ls.drop 2 ++ "</li>"], true)
  else if startsWithL "1. ".data ls.data then
    ((if !in_list then html ++ ["<ol>"] else html) ++ ["<li>" ++ ls.drop 3 ++ "</li>"], true)
  else
    let html :=
      if in_list then
        html ++ [if startsWithL "- ".data ls.data || startsWithL "* ".data ls.data
                 then "</ul>" else "</ol>"]
      else html
    if ls ≠ "" then (html ++ ["<p>" ++ ls ++ "</p>"], false)
    else (html ++ ["<br>"], false)

/-- Embedding of `_convert_to_html` (no claim exercises the HTML
output; the converter exists so that `generate_report` is total).  The
braces of the CSS are written `\x7b` / `\x7d`. -/
def convert_to_html (markdown_report : String) : String :=
  if markdown_report = "" then "" else
  let st := (splitOnChar '\n' markdown_report.data).foldl htmlStep ([], false)
  let html := if st.2 then st.1 ++ ["</ul>"] else st.1
  "<!DOCTYPE html>\n<html>\n<head>\n    <meta charset=\"UTF-8\">\n    <meta name=\"viewport\" content=\"width=device-width, initial-scale=1.0\">\n    <title>Business Intelligence Report</title>\n    <style>\n        body \x7b font-family: Arial, sans-serif; line-height: 1.6; margin: 40px; \x7d\n        h1 \x7b color: #2c3e50; border-bottom: 2px solid #3498db; padding-bottom: 10px; \x7d\n        h2 \x7b color: #34495e; margin-top: 30px; \x7d\n        h3 \x7b color: #7f8c8d; \x7d\n        ul, ol \x7b margin-left: 20px; \x7d\n        li \x7b margin-bottom: 5px; \x7d\n        p \x7b margin-bottom: 15px; \x7d\n        .metadata \x7b background-color: #f8f9fa; padding: 15px; border-left: 4px solid #3498db; margin: 20px 0; \x7d\n        .highlight \x7b background-color: #fffacd; padding: 2px 5px; \x7d\n    </style>\n</head>\n<body>\n" ++
  String.intercalate "" html ++ "\n</body>\n</html>"

/-! ## Error report (`_generate_error_report`) and pipeline entry
point (`generate_report`) -/

/-- Embedding of `_generate_error_report`; `ts` is the rendered
timestamp, `error_trace` the (bounded) traceback text. -/
def generate_error_report (ts : String) (error_message data_sample : String)
    (error_trace : Option String) : String :=
  let parts :=
    ["# ⚠ Report Generation Error",
     "**Time:** " ++ ts,
     "**Error:** " ++ error_message] ++
    (match error_trace with
     | some tr => ["\n**Technical Details:**", "```\n" ++ tr.take 500 ++ "\n```"]
     | none => []) ++
    ["\n**Data Sample (first 500 chars):**",
     "```\n" ++ data_sample ++ "\n```",
     "\n## Recommended Actions:",
     "1. Check your data format (CSV, JSON, or structured text)",
     "2. Verify data contains numeric columns for analysis",
     "3. Ensure internet connectivity if using AI features",
     "4. Try reducing data size if it" ++ apostS ++ "s very large",
     "5. Contact support with the error details above",
     "\n---",
     "*This error report was automatically generated*"]
  String.intercalate "\n" parts

/-- Embedding of the pipeline entry point `generate_report`.  External
collaborators appear as parameters: `jsonDf` / `jsonOk` model the
`json.loads`-based decoding, `ai_available` / `ai_outcome` the Groq
client and its call outcome, `today` / `timeNow` the clock.  The
framework analyses whose results feed only the AI prompt are stored as
tags (`salesA`, `operationalA`, `generalA`).  The `except` clause of
the source converts any escaped exception into the structured error
report; in the embedding the only escaping exceptions are the
formatting errors of the report generators.  The Python traceback text
is environment-dependent and is modelled as the error message. -/
def generate_report (jsonDf : String → Option Table) (jsonOk : String → Bool)
    (ai_available : Bool) (ai_outcome : Except Unit String) (today timeNow : String)
    (data_content data_type user_name business_type report_focus output_format : String)
    (user_role : Option String) : String :=
  let dt := if data_type = "auto" then detect_data_type jsonOk data_content else data_type
  let schema := detect_schema data_content business_type
  let em := extract_metrics jsonDf data_content dt schema
  let df := em.1
  let framework := select_framework schema business_type
  let fa : FrameworkAnalysis :=
    if framework = "financial" then .financialA (financial_framework df)
    else if framework = "sales" then .salesA
    else if framework = "operational" then .operationalA
    else .generalA
  let m := { em.2 with framework_analysis := some fa }
  let focus := if report_focus = "auto" then default_focus framework else report_focus
  let res := generate_with_fallback ai_available ai_outcome today timeNow data_content m
    framework schema user_name focus df user_role
  match res.2 with
  | .ok report => if output_format = "html" then convert_to_html report else report
  | .error e => generate_error_report (today ++ " " ++ timeNow) e (data_content.take 500) (some e)

/-! ### Claim C3 -/

def c3schema : Schema :=
  { type := "general", confidence := 0, indicatorsFinancial := 0, indicatorsSales := 0,
    indicatorsOperational := 0, business_type := "B", content_length := none }

def c3run : List Tier × Except String String :=
  generate_with_fallback true (.error ()) "2025-01-01" "12:00:00" "" {} "general" c3schema
    "User" "full" none none

/-! ### Claim C1 -/

/-- A reachable failing input for the template generator: a CSV with
eleven numeric columns whose revenue-keyword column is the eleventh, so
`calculated` (capped at ten columns) has no entry for it. -/
def c1content : String :=
  "c01,c02,c03,c04,c05,c06,c07,c08,c09,c10,revenue\n1,2,3,4,5,6,7,8,9,10,11"

def c1schema : Schema := detect_schema c1content "General Business"

def c1extract : Option Table × Metrics :=
  extract_metrics (fun _ => none) c1content "csv" c1schema

def c1metrics : Metrics :=
  { c1extract.2 with
    framework_analysis := some (.financialA (financial_framework c1extract.1)) }

def c1template : Except String String :=
  generate_template_report "2025-01-01" "12:00:00" c1content c1metrics "financial" c1schema
    "User" "profit" c1extract.1 none

/-! ### Claim C2 -/

def c2out : String :=
  generate_report (fun _ => none) (fun _ => false) false (.error ()) "2025-01-01" "12:00:00"
    "" "text" "User" "General Business" "auto" "markdown" none

/-! ## Theorems -/

/-! ### Classifier bounds -/

theorem keywordScore_sum_pos_aux (f s o : ℕ) :
    ((max f (max s o) : ℕ) : ℚ) ≤ ((f + s + o : ℕ) : ℚ) := by
  have h : max f (max s o) ≤ f + s + o := by
    refine Nat.max_le.mpr ⟨by omega, Nat.max_le.mpr ⟨by omega, by omega⟩⟩
  exact_mod_cast h

theorem detect_schema_confidence_nonneg (content bt : String) :
    0 ≤ (detect_schema content bt).confidence := by
  unfold detect_schema
  split
  · simp
  · dsimp only
    split
    · simp only
      positivity
    · simp

theorem detect_schema_confidence_lt_one (content bt : String) :
    (detect_schema content bt).confidence < 1 := by
  unfold detect_schema
  split
  · norm_num
  · dsimp only
    split
    · simp only
      rw [div_lt_one (by positivity)]
      have h := keywordScore_sum_pos_aux (keywordScore financial_terms (pyLower content))
        (keywordScore sales_terms (pyLower content))
        (keywordScore operational_terms (pyLower content))
      linarith
    · norm_num

/-- Claim C5: the classifier confidence always lies in `[0, 1]`, and a
text with zero keyword matches in all three keyword sets yields
confidence `0` and primary domain `general`. -/
theorem C5_classifier_confidence_bounds :
    (∀ content bt : String,
        0 ≤ (detect_schema content bt).confidence ∧
        (detect_schema content bt).confidence ≤ 1) ∧
    (∀ content bt : String,
        keywordScore financial_terms (pyLower content) = 0 →
        keywordScore sales_terms (pyLower content) = 0 →
        keywordScore operational_terms (pyLower content) = 0 →
        (detect_schema content bt).confidence = 0 ∧
        (detect_schema content bt).type = "general") := by
  constructor
  · intro content bt
    exact ⟨detect_schema_confidence_nonneg content bt,
      le_of_lt (detect_schema_confidence_lt_one content bt)⟩
  · intro content bt hf hs ho
    unfold detect_schema
    split
    · exact ⟨rfl, rfl⟩
    · dsimp only
      rw [hf, hs, ho]
      norm_num

/-- Witness for C5 at a concrete keyword-free text. -/
theorem C5_classifier_confidence_bounds_witness :
    (detect_schema "zzz" "b").confidence = 0 ∧ (detect_schema "zzz" "b").type = "general" :=
  C5_classifier_confidence_bounds.2 "zzz" "b" (by decide) (by decide) (by decide)

/-- Claim C10: whenever at least one domain keyword matches, the
confidence is strictly below `1` (the denominator exceeds the primary
score by the constant `0.001`), and a confidence of exactly `1` is
never returned for any input. -/
theorem C10_confidence_never_one :
    (∀ content bt : String,
        0 < keywordScore financial_terms (pyLower content) +
            keywordScore sales_terms (pyLower content) +
            keywordScore operational_terms (pyLower content) →
        (detect_schema content bt).confidence < 1) ∧
    (∀ content bt : String, (detect_schema content bt).confidence ≠ 1) := by
  constructor
  · intro content bt _
    exact detect_schema_confidence_lt_one content bt
  · intro content bt
    exact ne_of_lt (detect_schema_confidence_lt_one content bt)

/-- Witness for C10 at a text matching the financial keyword `revenue`. -/
theorem C10_confidence_never_one_witness :
    (detect_schema "revenue" "b").confidence < 1 :=
  C10_confidence_never_one.1 "revenue" "b" (by decide)

/-! ### Word-count arithmetic

A text of `n` words has at least `2 * n - 1` characters once stripped
(each word has a character and consecutive words are separated), so the
length-100 gate of the validator is implied by the 50-word gate. -/

theorem wcFrom_le (l : List Char) :
    2 * wcFrom true l ≤ l.length ∧ 2 * wcFrom false l ≤ l.length + 1 := by
  induction l with
  | nil => simp [wcFrom]
  | cons c rest ih =>
    by_cases h : isWS c = true <;> simp [wcFrom, h] <;> omega

theorem wcFrom_all_ws (t : List Char) (h : ∀ c ∈ t, isWS c = true) (b : Bool) :
    wcFrom b t = 0 := by
  induction t generalizing b with
  | nil => simp [wcFrom]
  | cons c rest ih =>
    have hc := h c (List.mem_cons_self c rest)
    simp only [wcFrom, hc, if_true]
    exact ih (fun x hx => h x (List.mem_cons_of_mem c hx)) false

theorem wcFrom_append_ws (l t : List Char) (h : ∀ c ∈ t, isWS c = true) (b : Bool) :
    wcFrom b (l ++ t) = wcFrom b l := by
  induction l generalizing b with
  | nil => simpa [wcFrom] using wcFrom_all_ws t h b
  | cons c rest ih =>
    by_cases hc : isWS c = true <;>
      simp [wcFrom, hc, List.append_eq, ih false, ih true]

theorem wcFrom_dropWhile (l : List Char) :
    wcFrom false (l.dropWhile isWS) = wcFrom false l := by
  induction l with
  | nil => rfl
  | cons c rest ih =>
    by_cases hc : isWS c = true <;> simp [List.dropWhile_cons, hc, wcFrom, ih]

theorem strip_decomp (m : List Char) :
    (m.reverse.dropWhile isWS).reverse ++ (m.reverse.takeWhile isWS).reverse = m := by
  rw [← List.reverse_append, List.takeWhile_append_dropWhile, List.reverse_reverse]

theorem wcFrom_strip (l : List Char) :
    wcFrom false (pyStripL l) = wcFrom false l := by
  have hws : ∀ c ∈ ((l.dropWhile isWS).reverse.takeWhile isWS).reverse, isWS c = true := by
    intro c hc
    rw [List.mem_reverse] at hc
    exact List.mem_takeWhile_imp hc
  have h2 : pyStripL l ++ ((l.dropWhile isWS).reverse.takeWhile isWS).reverse
      = l.dropWhile isWS := strip_decomp (l.dropWhile isWS)
  calc wcFrom false (pyStripL l)
      = wcFrom false (pyStripL l ++ ((l.dropWhile isWS).reverse.takeWhile isWS).reverse) :=
        (wcFrom_append_ws _ _ hws false).symm
    _ = wcFrom false (l.dropWhile isWS) := by rw [h2]
    _ = wcFrom false l := wcFrom_dropWhile l

theorem strip_length_of_words (s : String) (h : 50 < word_count s) :
    ¬ (pyStrip s).length < 100 := by
  have h1 : wcFrom false (pyStripL s.data) = word_count s := wcFrom_strip s.data
  have h2 := (wcFrom_le (pyStripL s.data)).2
  have h3 : (pyStrip s).length = (pyStripL s.data).length := rfl
  omega

theorem containsL_of_countSubL (pat l : List Char) (h : 1 ≤ countSubL pat l) :
    containsL pat l = true := by
  induction l with
  | nil =>
    unfold countSubL at h
    unfold containsL
    by_cases hs : startsWithL pat [] = true
    · exact hs
    · simp [hs] at h
  | cons c rest ih =>
    unfold countSubL at h
    unfold containsL
    by_cases hs : startsWithL pat (c :: rest) = true
    · simp [hs]
    · simp only [hs] at h ⊢
      simp only [Bool.false_eq_true, if_false, Nat.zero_add] at h
      simp [ih h]

/-- Counterexample to claim C4 as stated: `c4fifty` has two section
markers, exactly 50 words (hence "at least 50 words") and no
boilerplate phrases, yet the validator rejects it, because the word
gate of `_validate_report` is strict (`> 50`). -/
theorem C4_validator_counterexample :
    countSub c4fifty "##" = 2 ∧ word_count c4fifty = 50 ∧
    generic_count c4fifty = 0 ∧ validate_report c4fifty = false := by decide

/-- Claim C4, amended: the validator rejects the empty string and every
text with at most 50 words (i.e. below the minimum word count of 51),
and accepts every text with at least 2 section markers, strictly more
than 50 words, and no boilerplate phrases. -/
theorem C4_validator_amended :
    (validate_report "" = false) ∧
    (∀ s : String, word_count s ≤ 50 → validate_report s = false) ∧
    (∀ s : String, 2 ≤ countSub s "##" → 50 < word_count s →
      (∀ p ∈ generic_phrases, strContains (pyLower s) (pyLower p) = false) →
      validate_report s = true) := by
  refine ⟨by decide, ?_, ?_⟩
  · intro s h
    unfold validate_report
    split
    · rfl
    · have hd : decide (50 < word_count s) = false := decide_eq_false (by omega)
      simp [hd]
  · intro s h2 hwc hb
    have hne : s ≠ "" := by
      intro he
      rw [he] at hwc
      exact absurd hwc (by decide)
    have hlen := strip_length_of_words s hwc
    unfold validate_report
    rw [if_neg (by simp [hne, hlen])]
    have hmark : strContains s "##" = true :=
      containsL_of_countSubL _ _ (le_trans (by norm_num) h2)
    have hcnt : generic_count s = 0 := by
      unfold generic_count
      exact List.countP_eq_zero.mpr (fun p hp => by simp [hb p hp])
    simp [hmark, hcnt, hwc]

/-- Witness for the amended C4 at concrete inputs on both sides. -/
theorem C4_validator_amended_witness :
    validate_report "x" = false ∧ validate_report c4fiftyone = true :=
  ⟨C4_validator_amended.2.1 "x" (by decide),
   C4_validator_amended.2.2 c4fiftyone (by decide) (by decide) (by decide)⟩

theorem splitOnChar_ne_nil (c : Char) (l : List Char) : splitOnChar c l ≠ [] := by
  induction l with
  | nil => simp [splitOnChar]
  | cons x xs ih =>
    unfold splitOnChar
    by_cases h : (x == c) = true
    · simp [h]
    · simp only [h, Bool.false_eq_true, if_false]
      cases hr : splitOnChar c xs with
      | nil => exact absurd hr ih
      | cons p ps => simp

theorem splitOnChar_length (c : Char) (l : List Char) :
    (splitOnChar c l).length = l.count c + 1 := by
  induction l with
  | nil => simp [splitOnChar]
  | cons x xs ih =>
    unfold splitOnChar
    by_cases h : (x == c) = true
    · have hx : x = c := by simpa using h
      simp [h, List.count_cons, hx, ih]
    · cases hr : splitOnChar c xs with
      | nil => exact absurd hr (splitOnChar_ne_nil c xs)
      | cons p ps =>
        have hx : ¬ x = c := by simpa using h
        rw [hr] at ih
        simp only [h, Bool.false_eq_true, if_false, List.length_cons, List.count_cons]
        simp only [List.length_cons] at ih
        simp [hx, ih]

theorem containsL_singleton (c : Char) (l : List Char) :
    containsL [c] l = true ↔ c ∈ l := by
  induction l with
  | nil => simp [containsL, startsWithL]
  | cons x xs ih => simp [containsL, startsWithL, ih]

/-! ### Claim C8 -/

/-- Counterexample to claim C8 as stated: the single-line input
`"a,b"`, whose first line contains a comma splitting it into two
fields, is classified `"text"`, not tabular — the delimiter checks of
`_detect_data_type` run only when the stripped content spans more than
one line.  The `json.loads` oracle is irrelevant here (the input is not
brace/bracket delimited), so it is instantiated with a constant. -/
theorem C8_resolver_counterexample :
    detect_data_type (fun _ => false) "a,b" = "text" ∧
    ',' ∈ (stripLines "a,b").headD [] ∧ (stripLines "a,b").length = 1 := by
  decide

/-- Claim C8, amended: for every input whose stripped content has at
least two lines and whose first line contains a comma or a tab, the
resolver classifies the input as tabular (`"csv"`); for single-line
inputs the delimiter check is skipped. -/
theorem C8_resolver_tabular_amended :
    ∀ (jsonOk : String → Bool) (content : String),
      1 < (stripLines content).length →
      (',' ∈ (stripLines content).headD [] ∨ '\t' ∈ (stripLines content).headD []) →
      detect_data_type jsonOk content = "csv" := by
  intro jsonOk content hlen hdelim
  unfold detect_data_type
  rw [if_neg]
  · dsimp only
    by_cases hc : ',' ∈ (stripLines content).headD []
    · rw [if_pos]
      refine ⟨hlen, (containsL_singleton _ _).mpr hc, ?_⟩
      rw [splitOnChar_length]
      have := List.count_pos_iff.mpr hc
      omega
    · have ht : '\t' ∈ (stripLines content).headD [] := hdelim.resolve_left hc
      rw [if_neg, if_pos]
      · refine ⟨hlen, (containsL_singleton _ _).mpr ht, ?_⟩
        rw [splitOnChar_length]
        have := List.count_pos_iff.mpr ht
        omega
      · intro hcond
        exact hc ((containsL_singleton _ _).mp hcond.2.1)
  · intro h0
    have hd : (pyStrip content).data = [] := by
      have : (pyStrip content).data.length = 0 := h0
      exact List.length_eq_zero.mp this
    have : stripLines content = [[]] := by
      unfold stripLines
      rw [hd]
      rfl
    rw [this] at hlen
    simp at hlen

/-- Witness for the amended C8 at a two-line comma input. -/
theorem C8_resolver_tabular_amended_witness :
    detect_data_type (fun _ => false) "a,b\nc,d" = "csv" :=
  C8_resolver_tabular_amended (fun _ => false) "a,b\nc,d" (by decide) (by decide)

/-- Claim C9: whenever the classifier-detected domain is `financial`,
`sales` or `operational`, the selector returns that domain for every
user-declared business category; the category overrides act only when
the detected domain is `general`. -/
theorem C9_selector_respects_detected :
    ∀ (schema : Schema) (business_type : String),
      schema.type = "financial" ∨ schema.type = "sales" ∨ schema.type = "operational" →
      select_framework schema business_type = schema.type := by
  intro schema bt h
  have hng : ¬ schema.type = "general" := by
    rcases h with h | h | h <;> rw [h] <;> decide
  have hmem : schema.type ∈ framework_names := by
    rcases h with h | h | h <;> rw [h] <;> decide
  unfold select_framework
  dsimp only
  simp [hng, hmem]

/-- Witness for C9: a detected `sales` domain survives a manufacturing
business category. -/
theorem C9_selector_respects_detected_witness :
    select_framework
      { type := "sales", confidence := 0, indicatorsFinancial := 0,
        indicatorsSales := 1, indicatorsOperational := 0,
        business_type := "Manufacturing Plant", content_length := some 5 }
      "Manufacturing Plant" = "sales" :=
  C9_selector_respects_detected _ "Manufacturing Plant" (Or.inr (Or.inl rfl))

/-- Claim C6: on the two-row financial CSV the extractor records
`calculated["revenue"].sum = 220000`, the selector picks the financial
framework, and the financial analysis records a gross margin value of
`70000` (with percentage `350/11 ≈ 31.8%`). -/
theorem C6_financial_scenario :
    (c6extract.2.calculated.lookup "revenue").map (fun st => st.sum) = some (some 220000) ∧
    select_framework c6schema "General Business" = "financial" ∧
    (financial_framework c6extract.1).gross_margin = some (70000, 350 / 11) := by
  decide

/-- Counterexample to claim C7 as stated: on the semicolon-delimited
input `"a;b\n1;2"` the comma parse succeeds with a degenerate
single-column table, so the source records separator `","` and a
one-column table, while the first delimiter yielding a non-degenerate
table is `";"`. -/
theorem C7_delimiter_counterexample :
    (extract_metrics (fun _ => none) c7content "csv" (detect_schema c7content "B")).2.separator
      = some "," ∧
    specFirstNonDegenerateSep c7content = some ';' ∧
    (extract_metrics (fun _ => none) c7content "csv" (detect_schema c7content "B")).2.column_count
      = 1 := by
  decide

/-- Claim C7, amended: delimiters are tried in the priority order comma,
tab, semicolon, pipe, and the separator recorded (and the table kept)
is the first one for which parsing succeeds at all — degenerate
single-column tables count as success, so a later delimiter is reached
only when every earlier parse raises. -/
theorem C7_first_successful_separator
    (j : String → Option Table) (content : String) (sch : Schema) :
    (extract_metrics j content "csv" sch).2.separator
      = (csvSeps.find? (fun sep => (pdReadCsv sep content).isSome)).map sepName ∧
    (∀ sep, csvSeps.find? (fun sep => (pdReadCsv sep content).isSome) = some sep →
      (extract_metrics j content "csv" sch).1 = (pdReadCsv sep content).map normalizeTable) := by
  unfold extract_metrics
  dsimp only
  rw [if_pos rfl]
  cases h : csvSeps.find? (fun sep => (pdReadCsv sep content).isSome) with
  | none =>
    refine ⟨?_, ?_⟩
    · cases hnh : pdReadCsvNoHeader content with
      | none => rfl
      | some t => rfl
    · intro sep hsep
      exact Option.noConfusion hsep
  | some sep =>
    have hsome : (pdReadCsv sep content).isSome = true := by
      have h2 := List.find?_some h
      simpa using h2
    obtain ⟨t, ht⟩ := Option.isSome_iff_exists.mp hsome
    dsimp only
    rw [ht]
    refine ⟨rfl, ?_⟩
    intro sep2 hsep2
    injection hsep2 with he
    subst he
    rw [ht]
    rfl

/-- Witness for the amended C7: on the comma-delimited C6 input the
comma is the first succeeding separator and its parse is kept. -/
theorem C7_first_successful_separator_witness :
    (extract_metrics (fun _ => none) c6content "csv" c6schema).1
      = (pdReadCsv ',' c6content).map normalizeTable :=
  (C7_first_successful_separator (fun _ => none) c6content c6schema).2 ',' (by decide)

/-- Counterexample to claim C3 as stated: with the AI collaborator
raising, the orchestrator's control flow goes from the AI attempt
directly to the template generator — the hybrid tier is never
entered. -/
theorem C3_ai_raise_counterexample :
    c3run.1 = [Tier.ai, Tier.template] ∧ Tier.hybrid ∉ c3run.1 := by decide

/-- Claim C3, amended: for every input on which the AI collaborator
raises, control falls through directly to `TEMPLATE_FALLBACK`, skipping
the hybrid tier; the hybrid merge runs only when the AI call returned
text that failed validation. -/
theorem C3_ai_raise_goes_to_template :
    ∀ (e : Unit) (today timeNow data_content : String) (m : Metrics) (framework : String)
      (schema : Schema) (user_name report_focus : String) (df : Option Table)
      (user_role : Option String),
      generate_with_fallback true (.error e) today timeNow data_content m framework schema
          user_name report_focus df user_role
        = ([Tier.ai, Tier.template],
           generate_template_report today timeNow data_content m framework schema
             user_name report_focus df user_role) := by
  intros
  rfl

theorem c1_select_financial :
    select_framework c1schema "General Business" = "financial" := by decide

theorem c1_revenue_is_numeric : "revenue" ∈ c1extract.2.numeric_columns := by decide

theorem c1_revenue_not_calculated : c1extract.2.calculated.lookup "revenue" = none := by decide

set_option maxRecDepth 6000 in
theorem c1_template_errors : exceptIsOk c1template = false := by decide

/-- Claim C1 fails on the code: at the input `c1content` the financial
framework is selected, `revenue` is a numeric column with no
`calculated` entry, and the template generator raises a `ValueError`
while rendering the Revenue Analysis section (the string `"N/A"`
formatted with `.2f`) instead of returning a report. -/
theorem C1_template_fallback_raises :
    select_framework c1schema "General Business" = "financial" ∧
    "revenue" ∈ c1extract.2.numeric_columns ∧
    c1extract.2.calculated.lookup "revenue" = none ∧
    exceptIsOk c1template = false :=
  ⟨c1_select_financial, c1_revenue_is_numeric, c1_revenue_not_calculated, c1_template_errors⟩

/-- Counterexample to claim C2 as stated: for the empty input string
the pipeline returns a non-empty report that is not the
diagnostic/error report — no stage raises on empty content, so the
error-report path is never taken. -/
theorem C2_empty_input_counterexample :
    strContains c2out "Report Generation Error" = false ∧ c2out ≠ "" := by decide

/-- Claim C2, amended: on the empty input string no exception escapes
to the caller, but the pipeline returns an ordinary template-generated
report for the `general` framework (non-empty, containing every general
template section), not the diagnostic error report. -/
theorem C2_empty_input_returns_template_report :
    c2out ≠ "" ∧
    strContains c2out "Report Generation Error" = false ∧
    exceptIsOk (generate_template_report "2025-01-01" "12:00:00" ""
      { (extract_metrics (fun _ => none) "" "text" (detect_schema "" "General Business")).2 with
        framework_analysis := some .generalA }
      "general" (detect_schema "" "General Business") "User" "full" none none) = true ∧
    (template_sections "general").all (fun sec => strContains c2out ("## " ++ sec)) = true := by
  decide
